import Mathlib

/-!
Verification development for the Honeywell Lyric thermostat integration.

The JavaScript sources are shallowly embedded: JavaScript values are the
inductive `JVal` (numbers as rationals, with a separate NaN constructor),
objects are association lists, and the stateful device code is modelled as
explicit state passing over `DeviceState`. Network calls and the third-party
OAuth2 library are parameters of the functions that use them.
-/

namespace HoneywellLyric

/-- A JavaScript value: undefined, null, boolean, number (rational, with NaN
separate), string, or object (association list of fields). -/
inductive JVal where
  | undef : JVal
  | null : JVal
  | bool : Bool → JVal
  | num : ℚ → JVal
  | nan : JVal
  | str : String → JVal
  | obj : List (String × JVal) → JVal

/-- First binding of a key in an association list of object fields. -/
def lookupField : List (String × JVal) → String → Option JVal
  | [], _ => none
  | (k, v) :: rest, key => if k = key then some v else lookupField rest key

/-- Models `Object.prototype.hasOwnProperty.call(v, key)` together with the
field read: `some` exactly when the property is present. Non-objects own no
properties. -/
def jgetOpt : JVal → String → Option JVal
  | JVal.obj fields, key => lookupField fields key
  | _, _ => none

/-- Models the JavaScript property read `v[key]`: `undefined` when absent. -/
def jget (v : JVal) (key : String) : JVal :=
  (jgetOpt v key).getD JVal.undef

/-- JavaScript truthiness: undefined, null, false, 0, NaN and the empty
string are falsy; everything else is truthy. -/
def truthy : JVal → Bool
  | JVal.undef => false
  | JVal.null => false
  | JVal.bool b => b
  | JVal.num q => if q = 0 then false else true
  | JVal.nan => false
  | JVal.str s => if s = "" then false else true
  | JVal.obj _ => true

/-- The JavaScript expression `a || b`. -/
def jsOr (a b : JVal) : JVal :=
  if truthy a then a else b

/-- Strict equality of a JavaScript value against a string literal, as in
`v === "Celsius"`: true only for the equal string. -/
def JVal.eqStr : JVal → String → Bool
  | JVal.str s, t => s = t
  | _, _ => false

/-- Models `typeof v === "string"`. -/
def JVal.isString : JVal → Bool
  | JVal.str _ => true
  | _ => false

/-- Models `typeof v === "number"` (NaN is a number in JavaScript). -/
def JVal.isNumber : JVal → Bool
  | JVal.num _ => true
  | JVal.nan => true
  | _ => false

/-- Models `typeof v === "boolean"`. -/
def JVal.isBool : JVal → Bool
  | JVal.bool _ => true
  | _ => false

/-- Whether `sub` occurs as a contiguous block starting at some position of
the second list. -/
def includesFrom (sub : List Char) : List Char → Bool
  | [] => List.isPrefixOf sub []
  | c :: rest => List.isPrefixOf sub (c :: rest) || includesFrom sub rest

/-- Models `String.prototype.startsWith`: prefix test. -/
def strStartsWith (s pre : String) : Bool :=
  List.isPrefixOf pre.data s.data

/-- Models `String.prototype.includes`: substring containment. -/
def strIncludes (s sub : String) : Bool :=
  includesFrom sub.data s.data

/-! ### lib/HoneywellUtils.js -/

/-- `ftoc` from lib/HoneywellUtils.js: Fahrenheit to Celsius. -/
def ftoc (f : ℚ) : ℚ :=
  (f - 32) / 1.8

/-- `ctof` from lib/HoneywellUtils.js: Celsius to Fahrenheit. -/
def ctof (c : ℚ) : ℚ :=
  (c * 1.8) + 32

/-- `ftoc` applied to a JavaScript value: arithmetic on a non-number gives
NaN. -/
def ftocJV : JVal → JVal
  | JVal.num q => JVal.num (ftoc q)
  | _ => JVal.nan

/-- `ctof` applied to a JavaScript value: arithmetic on a non-number gives
NaN. -/
def ctofJV : JVal → JVal
  | JVal.num q => JVal.num (ctof q)
  | _ => JVal.nan

/-! ### HoneywellOAuth2Client (response interpretation and token refresh) -/

/-- The vendor fault string marking a quota violation. -/
def rateLimitMark : String :=
  "Rate limit quota violation."

/-- `_detectRateLimit` from HoneywellOAuth2Client: true (and the rateLimited
event is emitted) exactly when the body owns a `fault` property whose
`faultstring` property is a string containing the quota-violation mark. A
non-string `faultstring` has no `includes` method in JavaScript; such a body
is not classified as rate-limited. -/
def _detectRateLimit (body : JVal) : Bool :=
  match jgetOpt body "fault" with
  | none => false
  | some fault =>
    match jgetOpt fault "faultstring" with
    | some (JVal.str s) => strIncludes s rateLimitMark
    | _ => false

/-- Result of `onHandleNotOK`: whether the rateLimited event was emitted by
the detector that runs first, and the status and body the generic error
classification of the base library is then given. -/
structure NotOKResult where
  rateLimited : Bool
  errStatus : Nat
  errBody : JVal

/-- `onHandleNotOK` from HoneywellOAuth2Client: run the rate-limit detector
on the body, then hand status and body to the generic classification. -/
def onHandleNotOK (body : JVal) (status : Nat) : NotOKResult :=
  { rateLimited := _detectRateLimit body
    errStatus := status
    errBody := body }

/-- A raw HTTP response as `onHandleResponse` receives it: numeric status,
the ok flag of the transport, the declared content type header (absent when
the header is missing), and the body text. -/
structure RawResponse where
  status : Nat
  ok : Bool
  contentType : Option String
  bodyText : String

/-- The body interpretation inside `onHandleResponse`: the body is read as
text; it is parsed as JSON only when the declared content type starts with
`application/json`, and an empty body text under that content type becomes
the empty object instead of a parse failure. -/
def readBody (parse : String → JVal) (contentType : Option String) (text : String) : JVal :=
  match contentType with
  | some ct =>
    if strStartsWith ct "application/json" then
      if text.length = 0 then JVal.obj [] else parse text
    else JVal.str text
  | none => JVal.str text

/-- Outcome of `onHandleResponse`: a returned body (none models the
`undefined` returned for status 204) or a thrown classified error. -/
inductive HandleOutcome where
  | success : Option JVal → HandleOutcome
  | failure : NotOKResult → HandleOutcome

/-- `onHandleResponse` from HoneywellOAuth2Client, with `JSON.parse` as the
parameter `parse`: status 204 returns undefined; otherwise the body is
interpreted by `readBody`, returned when the response is ok, and classified
through `onHandleNotOK` and thrown when it is not. -/
def onHandleResponse (parse : String → JVal) (r : RawResponse) : HandleOutcome :=
  if r.status = 204 then HandleOutcome.success none
  else
    let body := readBody parse r.contentType r.bodyText
    if r.ok then HandleOutcome.success (some body)
    else HandleOutcome.failure (onHandleNotOK body r.status)

/-- A stored OAuth2 token. `refreshable` abstracts the base library
predicate `isRefreshable` that `onRefreshToken` consults. -/
structure StoredToken where
  access_token : String
  refresh_token : String
  refreshable : Bool
deriving DecidableEq

/-- The refresh-grant request `onRefreshToken` posts: the form parameters
and the Authorization header. The header is `Basic` followed by the base64
rendering of `user:pass`; base64 being injective, the header is modelled by
the scheme and the two credentials it encodes. -/
structure RefreshRequest where
  grantType : String
  refreshTokenParam : String
  authScheme : String
  authUser : String
  authPass : String
deriving DecidableEq

/-- The token-holding client state: the stored token and how many times the
state has been persisted through `save`. -/
structure ClientState where
  token : Option StoredToken
  saveCount : Nat
deriving DecidableEq

/-- Outcome of `onRefreshToken`: an OAuth2Error thrown before any request, a
thrown transport failure, or the returned new token together with the new
client state and the request that was sent. -/
inductive RefreshOutcome where
  | authError : String → RefreshOutcome
  | netError : Nat → RefreshOutcome
  | success : StoredToken → ClientState → RefreshRequest → RefreshOutcome
deriving DecidableEq

/-- The refresh-grant request built by `onRefreshToken` for a token, given
the client id and secret read from the environment. -/
def refreshRequestFor (apiKey apiSecret : String) (token : StoredToken) : RefreshRequest :=
  { grantType := "refresh_token"
    refreshTokenParam := token.refresh_token
    authScheme := "Basic"
    authUser := apiKey
    authPass := apiSecret }

/-- `onRefreshToken` from HoneywellOAuth2Client, with the network modelled
by `net` (the fetch of the token url followed by the base library parse of
the response: an error status, or the new token). Missing or
non-refreshable tokens fail with an OAuth2Error before any request; on
success the new token replaces the stored one, the state is persisted, and
the new token is returned. -/
def onRefreshToken (apiKey apiSecret : String) (st : ClientState)
    (net : RefreshRequest → Except Nat StoredToken) : RefreshOutcome :=
  match st.token with
  | none => RefreshOutcome.authError "Missing Token"
  | some token =>
    if token.refreshable = false then
      RefreshOutcome.authError "Token cannot be refreshed"
    else
      let req := refreshRequestFor apiKey apiSecret token
      match net req with
      | Except.error status => RefreshOutcome.netError status
      | Except.ok newTok =>
        RefreshOutcome.success newTok { token := some newTok, saveCount := st.saveCount + 1 } req

/-! ### HoneywellLyricClient (write-command composition) -/

/-- The named parameters of `_sendThermostatData` other than the ids: the
possibly-undefined values the caller supplies for the write. -/
structure WriteParams where
  mode : JVal
  heatSetpoint : JVal
  coolSetpoint : JVal
  thermostatSetpointStatus : JVal

/-- The json body `_sendThermostatData` posts. `autoChangeoverActive` and
`nextPeriodTime` are `some` exactly when the property is attached. -/
structure WriteJson where
  mode : JVal
  heatSetpoint : JVal
  coolSetpoint : JVal
  thermostatSetpointStatus : JVal
  autoChangeoverActive : Option Bool
  nextPeriodTime : Option String

/-- The json composition inside `_sendThermostatData` of
HoneywellLyricClient, applied to the caller parameters and the device data
freshly fetched by `_getDeviceData`: each field is the caller value `||` the
snapshot changeableValues field, `autoChangeoverActive` is copied when it is
a boolean, and a merged status of HoldUntil either carries the snapshot
string `nextPeriodTime` or is downgraded to PermanentHold. -/
def _sendThermostatData (p : WriteParams) (deviceData : JVal) : WriteJson :=
  let cv := jget deviceData "changeableValues"
  let json : WriteJson :=
    { mode := jsOr p.mode (jget cv "mode")
      heatSetpoint := jsOr p.heatSetpoint (jget cv "heatSetpoint")
      coolSetpoint := jsOr p.coolSetpoint (jget cv "coolSetpoint")
      thermostatSetpointStatus :=
        jsOr p.thermostatSetpointStatus (jget cv "thermostatSetpointStatus")
      autoChangeoverActive :=
        match jget cv "autoChangeoverActive" with
        | JVal.bool b => some b
        | _ => none
      nextPeriodTime := none }
  if JVal.eqStr json.thermostatSetpointStatus "HoldUntil" then
    match jget cv "nextPeriodTime" with
    | JVal.str s => { json with nextPeriodTime := some s }
    | _ => { json with thermostatSetpointStatus := JVal.str "PermanentHold" }
  else json

/-! ### HoneywellLyricDevice (reconciliation and capability listeners) -/

/-- The per-device local state the reconciliation code reads and writes: the
fixed capability set (has… flags), the units setting, the capability values,
the availability flag, and instrumentation recording every setAvailable or
setUnavailable call (true for setAvailable) and every fired mode-changed
trigger. -/
structure DeviceState where
  hasCool : Bool
  hasThermoMode : Bool
  hasACMode : Bool
  unitsSetting : JVal
  measureTemperature : JVal
  targetTemperature : JVal
  targetTemperatureCool : JVal
  thermostatMode : JVal
  acMode : JVal
  available : Bool
  availEvents : List Bool
  modeEvents : List String

/-- `setAvailable` on the device: flips the flag and records the call. -/
def setAvailable (st : DeviceState) : DeviceState :=
  { st with available := true, availEvents := st.availEvents ++ [true] }

/-- `setUnavailable` on the device: flips the flag and records the call. -/
def setUnavailable (st : DeviceState) : DeviceState :=
  { st with available := false, availEvents := st.availEvents ++ [false] }

/-- `_parseMeasuredTemperature`: skipped when `units` is absent; otherwise
the indoor temperature is converted Fahrenheit to Celsius exactly when the
reported unit is not the string Celsius, the units setting is set to the
reported unit, and the measured temperature is stored. -/
def _parseMeasuredTemperature (deviceData : JVal) (st : DeviceState) : DeviceState :=
  match jgetOpt deviceData "units" with
  | none => st
  | some u =>
    let temp :=
      if JVal.eqStr u "Celsius" then jget deviceData "indoorTemperature"
      else ftocJV (jget deviceData "indoorTemperature")
    { st with unitsSetting := u, measureTemperature := temp }

/-- `_parseTargetTemperature`: skipped when `mode`, `heatSetpoint` or
`coolSetpoint` is absent from changeableValues; otherwise the setpoints are
stored exactly as reported, the cool one only when the capability exists. -/
def _parseTargetTemperature (deviceData : JVal) (st : DeviceState) : DeviceState :=
  let cv := jget deviceData "changeableValues"
  match jgetOpt cv "mode" with
  | none => st
  | some _ =>
    match jgetOpt cv "heatSetpoint" with
    | none => st
    | some heat =>
      match jgetOpt cv "coolSetpoint" with
      | none => st
      | some cool =>
        let st := { st with targetTemperature := heat }
        if st.hasCool then { st with targetTemperatureCool := cool } else st

/-- `_parseThermostatMode`: skipped when `mode` is absent from
changeableValues; `none` models the exception `toLowerCase` throws on a
non-string mode; otherwise the lower-cased mode is stored, firing the
mode-changed trigger when it differs from the stored value. -/
def _parseThermostatMode (deviceData : JVal) (st : DeviceState) : Option DeviceState :=
  match jgetOpt (jget deviceData "changeableValues") "mode" with
  | none => some st
  | some m =>
    match m with
    | JVal.str s =>
      let mode := s.toLower
      let st :=
        if JVal.eqStr st.thermostatMode mode then st
        else { st with modeEvents := st.modeEvents ++ [mode] }
      some { st with thermostatMode := JVal.str mode }
    | _ => none

/-- `_parseACMode`: skipped when `mode` is absent from changeableValues;
otherwise the mode is stored as reported. -/
def _parseACMode (deviceData : JVal) (st : DeviceState) : DeviceState :=
  match jgetOpt (jget deviceData "changeableValues") "mode" with
  | none => st
  | some m => { st with acMode := m }

/-- `_parseAlive`: an absent `isAlive` only logs an error and the step still
runs on the undefined value. The two sequential conditionals re-read the
availability flag, so the second sees the effect of the first. -/
def _parseAlive (deviceData : JVal) (st : DeviceState) : DeviceState :=
  let isAlive := jget deviceData "isAlive"
  let st := if st.available = false ∧ truthy isAlive = true then setAvailable st else st
  if st.available = true ∧ truthy isAlive = false then setUnavailable st else st

/-- The thermostat branch of `_fetchDeviceData`, after the payload has been
fetched: abort when the payload owns no `changeableValues`, then run the
parse steps in source order; an exception from `_parseThermostatMode` is
caught by the surrounding try, skipping the remaining steps. The mode steps
run only when the matching capability exists. -/
def reconcileThermostat (deviceData : JVal) (st : DeviceState) : DeviceState :=
  match jgetOpt deviceData "changeableValues" with
  | none => st
  | some _ =>
    let st1 := _parseMeasuredTemperature deviceData st
    let st2 := _parseTargetTemperature deviceData st1
    match (if st2.hasThermoMode then _parseThermostatMode deviceData st2 else some st2) with
    | none => st2
    | some st3 =>
      let st4 := if st3.hasACMode then _parseACMode deviceData st3 else st3
      _parseAlive deviceData st4

/-- `_transformTemperature`: when the units setting is a string other than
Celsius, a setpoint the user supplies is converted Celsius to Fahrenheit
before being sent; otherwise it passes through unchanged. -/
def _transformTemperature (units temperature : JVal) : JVal :=
  match units with
  | JVal.str s => if s = "Celsius" then temperature else ctofJV temperature
  | _ => temperature

/-- The arguments `onMultipleCapabilities` hands to `setThermostat`. -/
structure ThermostatArgs where
  heatSetpoint : JVal
  coolSetpoint : JVal
  mode : JVal
  thermostatSetpointStatus : JVal

/-- `onMultipleCapabilities`: defaults come from the current capability
values, a numeric supplied setpoint is transformed by
`_transformTemperature` and requests HoldUntil, and the mode fields follow
the thermostat- and AC-mode capability branches of the source. -/
def onMultipleCapabilities (st : DeviceState) (capabilityValues : JVal) : ThermostatArgs :=
  let heat0 := st.targetTemperature
  let cool0 := if st.hasCool then st.targetTemperatureCool else heat0
  let v := jget capabilityValues "target_temperature"
  let heat := if v.isNumber then _transformTemperature st.unitsSetting v else heat0
  let status1 := if v.isNumber then JVal.str "HoldUntil" else JVal.str "PermanentHold"
  let vc := jget capabilityValues "target_temperature.cool"
  let cool :=
    if st.hasCool ∧ vc.isNumber = true then _transformTemperature st.unitsSetting vc else cool0
  let status :=
    if st.hasCool ∧ vc.isNumber = true then JVal.str "HoldUntil" else status1
  let mode1 : JVal :=
    if st.hasThermoMode then
      match jget capabilityValues "custom_thermostat_mode" with
      | JVal.str s =>
        let newMode := if s = "" then "heat" else s
        if newMode = "heat" then JVal.str "Heat" else JVal.str "Off"
      | _ => JVal.undef
    else JVal.undef
  let mode :=
    if st.hasACMode then
      match jget capabilityValues "custom_ac_mode" with
      | JVal.str s => JVal.str s
      | _ => mode1
    else mode1
  { heatSetpoint := heat
    coolSetpoint := cool
    mode := mode
    thermostatSetpointStatus := status }

/-! ### Theorems -/

/-- C9: the unit conversions are the pure total functions
fahrenheitToCelsius f = (f - 32) / 1.8 and celsiusToFahrenheit c =
c * 1.8 + 32, and the two round-trips are the identity (numbers modelled as
rationals, so the round-trips are exact, in particular within any
floating-point tolerance). -/
theorem C9_unit_conversion_roundtrip (x : ℚ) :
    ftoc x = (x - 32) / 1.8 ∧
    ctof x = x * 1.8 + 32 ∧
    ctof (ftoc x) = x ∧
    ftoc (ctof x) = x := by
  refine ⟨rfl, rfl, ?_, ?_⟩ <;>
    · unfold ctof ftoc
      field_simp

/-- C1: a failing response body is classified as rate-limited, emitting the
rateLimited notification, exactly when it owns a fault field whose
faultstring field is a string containing the literal mark
"Rate limit quota violation."; the detection depends only on the body (it
runs before, and independently of, the generic classification by status),
and the body with faultstring "other" is not rate-limited. -/
theorem C1_rate_limit_classification (body : JVal) (status : Nat) :
    ((onHandleNotOK body status).rateLimited = true ↔
      ∃ fault s, jgetOpt body "fault" = some fault ∧
        jgetOpt fault "faultstring" = some (JVal.str s) ∧
        strIncludes s rateLimitMark = true) ∧
    (onHandleNotOK body status).rateLimited = _detectRateLimit body ∧
    _detectRateLimit
      (JVal.obj [("fault", JVal.obj [("faultstring", JVal.str "other")])]) = false := by
  refine ⟨?_, rfl, by decide⟩
  show _detectRateLimit body = true ↔ _
  rcases hf : jgetOpt body "fault" with _ | fault
  · simp [_detectRateLimit, hf]
  · rcases hs : jgetOpt fault "faultstring" with _ | fs
    · simp [_detectRateLimit, hf, hs]
    · cases fs <;> simp [_detectRateLimit, hf, hs]

/-- C1 witness: a concrete failing body carrying the quota-violation mark is
classified as rate-limited. -/
theorem C1_rate_limit_classification_witness :
    (onHandleNotOK
      (JVal.obj [("fault",
        JVal.obj [("faultstring", JVal.str "Oops. Rate limit quota violation. Retry.")])])
      500).rateLimited = true :=
  (C1_rate_limit_classification _ 500).1.mpr ⟨_, _, rfl, rfl, by decide⟩

/-- C4: the response interpreter returns no body and no error on status 204;
on any other status under a JSON content type with empty body text the body
is deserialized as the empty object rather than a parse failure (returned on
an ok response, carried by the classified error otherwise); an ok response
with a nonempty JSON body returns the parsed body; a failing response
throws the error classified from the interpreted body and status. -/
theorem C4_response_interpretation (parse : String → JVal) (r : RawResponse) :
    (r.status = 204 → onHandleResponse parse r = HandleOutcome.success none) ∧
    (∀ ct, r.status ≠ 204 → r.contentType = some ct →
      strStartsWith ct "application/json" = true → r.bodyText.length = 0 →
      (r.ok = true →
        onHandleResponse parse r = HandleOutcome.success (some (JVal.obj []))) ∧
      (r.ok = false →
        onHandleResponse parse r =
          HandleOutcome.failure (onHandleNotOK (JVal.obj []) r.status))) ∧
    (∀ ct, r.status ≠ 204 → r.ok = true → r.contentType = some ct →
      strStartsWith ct "application/json" = true → r.bodyText.length ≠ 0 →
      onHandleResponse parse r = HandleOutcome.success (some (parse r.bodyText))) ∧
    (r.status ≠ 204 → r.ok = false →
      onHandleResponse parse r =
        HandleOutcome.failure
          (onHandleNotOK (readBody parse r.contentType r.bodyText) r.status)) := by
  refine ⟨fun h => by simp [onHandleResponse, h], ?_, ?_, ?_⟩
  · intro ct h204 hct hjson hlen
    constructor <;> intro hok <;>
      simp [onHandleResponse, readBody, h204, hct, hjson, hlen, hok]
  · intro ct h204 hok hct hjson hlen
    simp [onHandleResponse, readBody, h204, hct, hjson, hlen, hok]
  · intro h204 hok
    simp [onHandleResponse, h204, hok]

/-- C4 witness: the theorem evaluated at concrete responses — a 204, an ok
empty-body JSON 200, an ok nonempty JSON 200, and a failing 500. -/
theorem C4_response_interpretation_witness :
    onHandleResponse (fun _ => JVal.null)
      { status := 204, ok := true, contentType := some "application/json", bodyText := "" } =
      HandleOutcome.success none ∧
    onHandleResponse (fun _ => JVal.null)
      { status := 200, ok := true, contentType := some "application/json", bodyText := "" } =
      HandleOutcome.success (some (JVal.obj [])) ∧
    onHandleResponse (fun _ => JVal.null)
      { status := 200, ok := true, contentType := some "application/json", bodyText := "x" } =
      HandleOutcome.success (some (JVal.null)) ∧
    onHandleResponse (fun _ => JVal.null)
      { status := 500, ok := false, contentType := some "text/plain", bodyText := "x" } =
      HandleOutcome.failure (onHandleNotOK (JVal.str "x") 500) :=
  by
  refine ⟨?_, ?_, ?_, ?_⟩
  · exact (C4_response_interpretation (fun _ => JVal.null) _).1 rfl
  · exact ((C4_response_interpretation (fun _ => JVal.null) _).2.1 "application/json"
      (by decide) rfl (by decide) (by decide)).1 rfl
  · exact (C4_response_interpretation (fun _ => JVal.null) _).2.2.1 "application/json"
      (by decide) rfl rfl (by decide) (by decide)
  · exact (C4_response_interpretation (fun _ => JVal.null) _).2.2.2 (by decide) rfl

/-- C8: token refresh fails with an auth error when no token is stored or
the stored token is not refreshable; otherwise it posts the refresh-grant
request carrying the Basic auth header built from the client id and secret,
and on a successful response replaces the stored token with the new one,
persists the state, and returns the new token. -/
theorem C8_refresh_token (apiKey apiSecret : String) (st : ClientState)
    (net : RefreshRequest → Except Nat StoredToken) :
    (st.token = none →
      onRefreshToken apiKey apiSecret st net = RefreshOutcome.authError "Missing Token") ∧
    (∀ t, st.token = some t → t.refreshable = false →
      onRefreshToken apiKey apiSecret st net =
        RefreshOutcome.authError "Token cannot be refreshed") ∧
    (∀ t newTok, st.token = some t → t.refreshable = true →
      net (refreshRequestFor apiKey apiSecret t) = Except.ok newTok →
      onRefreshToken apiKey apiSecret st net =
        RefreshOutcome.success newTok
          { token := some newTok, saveCount := st.saveCount + 1 }
          (refreshRequestFor apiKey apiSecret t) ∧
      (refreshRequestFor apiKey apiSecret t).grantType = "refresh_token" ∧
      (refreshRequestFor apiKey apiSecret t).authScheme = "Basic" ∧
      (refreshRequestFor apiKey apiSecret t).authUser = apiKey ∧
      (refreshRequestFor apiKey apiSecret t).authPass = apiSecret) := by
  refine ⟨fun h => by simp [onRefreshToken, h], ?_, ?_⟩
  · intro t ht hr
    simp [onRefreshToken, ht, hr]
  · intro t newTok ht hr hnet
    refine ⟨?_, rfl, rfl, rfl, rfl⟩
    simp [onRefreshToken, ht, hr, hnet]

/-- C8 witness: the theorem evaluated at a concrete client state and
network — a missing token, a non-refreshable token, and a successful
refresh replacing and persisting the token. -/
theorem C8_refresh_token_witness :
    onRefreshToken "id" "secret" { token := none, saveCount := 0 } (fun _ => Except.error 401) =
      RefreshOutcome.authError "Missing Token" ∧
    onRefreshToken "id" "secret"
      { token := some { access_token := "a", refresh_token := "r", refreshable := false },
        saveCount := 0 } (fun _ => Except.error 401) =
      RefreshOutcome.authError "Token cannot be refreshed" ∧
    onRefreshToken "id" "secret"
      { token := some { access_token := "a", refresh_token := "r", refreshable := true },
        saveCount := 3 }
      (fun _ => Except.ok { access_token := "a2", refresh_token := "r2", refreshable := true }) =
      RefreshOutcome.success
        { access_token := "a2", refresh_token := "r2", refreshable := true }
        { token := some { access_token := "a2", refresh_token := "r2", refreshable := true },
          saveCount := 4 }
        (refreshRequestFor "id" "secret"
          { access_token := "a", refresh_token := "r", refreshable := true }) :=
  ⟨(C8_refresh_token "id" "secret" _ _).1 rfl,
   (C8_refresh_token "id" "secret" _ _).2.1 _ rfl rfl,
   ((C8_refresh_token "id" "secret" _ _).2.2 _ _ rfl rfl rfl).1⟩

/-- Strict string equality test read back as a propositional equality. -/
theorem eqStr_eq_true_iff (v : JVal) (t : String) :
    JVal.eqStr v t = true ↔ v = JVal.str t := by
  cases v <;> simp [JVal.eqStr]

/-- C2: whenever the merged write status is HoldUntil, the composed command
keeps HoldUntil and carries the snapshot string nextPeriodTime when the
snapshot changeableValues exposes one, and otherwise is downgraded to
PermanentHold with no nextPeriodTime attached. -/
theorem C2_hold_until_policy (p : WriteParams) (dd : JVal)
    (h : jsOr p.thermostatSetpointStatus
      (jget (jget dd "changeableValues") "thermostatSetpointStatus") = JVal.str "HoldUntil") :
    (∀ s, jget (jget dd "changeableValues") "nextPeriodTime" = JVal.str s →
      (_sendThermostatData p dd).thermostatSetpointStatus = JVal.str "HoldUntil" ∧
      (_sendThermostatData p dd).nextPeriodTime = some s) ∧
    ((jget (jget dd "changeableValues") "nextPeriodTime").isString = false →
      (_sendThermostatData p dd).thermostatSetpointStatus = JVal.str "PermanentHold" ∧
      (_sendThermostatData p dd).nextPeriodTime = none) := by
  constructor
  · intro s hs
    simp [_sendThermostatData, h, hs, JVal.eqStr]
  · intro hns
    rcases hnp : jget (jget dd "changeableValues") "nextPeriodTime" with _ | _ | b | q | _ | s | f
    case str => simp [JVal.isString, hnp] at hns
    all_goals simp [_sendThermostatData, h, hnp, JVal.eqStr]

/-- The write parameters of a caller requesting heatSetpoint 21 with status
HoldUntil. -/
def holdWrite : WriteParams :=
  { mode := JVal.undef, heatSetpoint := JVal.num 21, coolSetpoint := JVal.undef,
    thermostatSetpointStatus := JVal.str "HoldUntil" }

/-- The write parameters of a caller supplying a truthy heatSetpoint and a
falsy (zero) coolSetpoint. -/
def mixedWrite : WriteParams :=
  { mode := JVal.undef, heatSetpoint := JVal.num 21, coolSetpoint := JVal.num 0,
    thermostatSetpointStatus := JVal.undef }

/-- The write parameters of a caller that supplies nothing. -/
def emptyWrite : WriteParams :=
  { mode := JVal.undef, heatSetpoint := JVal.undef, coolSetpoint := JVal.undef,
    thermostatSetpointStatus := JVal.undef }

/-- A device snapshot whose changeableValues hold status HoldUntil and no
nextPeriodTime. -/
def snapHoldPlain : JVal :=
  JVal.obj [("changeableValues", JVal.obj
    [("mode", JVal.str "Heat"), ("heatSetpoint", JVal.num 20),
     ("coolSetpoint", JVal.num 25), ("thermostatSetpointStatus", JVal.str "HoldUntil")])]

/-- A device snapshot whose changeableValues hold status HoldUntil and a
string nextPeriodTime. -/
def snapHoldTimed : JVal :=
  JVal.obj [("changeableValues", JVal.obj
    [("mode", JVal.str "Heat"), ("heatSetpoint", JVal.num 20),
     ("coolSetpoint", JVal.num 25), ("thermostatSetpointStatus", JVal.str "HoldUntil"),
     ("nextPeriodTime", JVal.str "2021-05-05T12:00:00")])]

/-- C2 witness: with heatSetpoint 21 and requested status HoldUntil, the
command composed over a snapshot without nextPeriodTime is downgraded to
PermanentHold, and over a snapshot with a string nextPeriodTime it keeps
HoldUntil carrying that time. -/
theorem C2_hold_until_policy_witness :
    ((_sendThermostatData holdWrite
        snapHoldPlain).thermostatSetpointStatus = JVal.str "PermanentHold" ∧
      (_sendThermostatData
        holdWrite
        snapHoldPlain).nextPeriodTime = none) ∧
    ((_sendThermostatData holdWrite
        snapHoldTimed).thermostatSetpointStatus = JVal.str "HoldUntil" ∧
      (_sendThermostatData
        holdWrite
        snapHoldTimed).nextPeriodTime = some "2021-05-05T12:00:00") :=
  ⟨(C2_hold_until_policy holdWrite snapHoldPlain rfl).2 rfl,
   (C2_hold_until_policy holdWrite snapHoldTimed rfl).1 "2021-05-05T12:00:00" rfl⟩

/-- C3 counterexample: composing the empty parameters over a snapshot whose
changeableValues carry status HoldUntil and no nextPeriodTime yields a
command whose status is PermanentHold, not the snapshot status HoldUntil —
so an empty merge is not always equal to the snapshot fields. -/
theorem C3_empty_merge_counterexample :
    (_sendThermostatData emptyWrite snapHoldPlain).thermostatSetpointStatus =
      JVal.str "PermanentHold" ∧
    jget (jget snapHoldPlain "changeableValues") "thermostatSetpointStatus" =
      JVal.str "HoldUntil" ∧
    JVal.str "PermanentHold" ≠ JVal.str "HoldUntil" :=
  ⟨rfl, rfl, by simp⟩

/-- C3 amended: each of mode, heatSetpoint, coolSetpoint is taken from the
caller parameter exactly when that parameter is truthy (so a supplied falsy
value, such as a zero setpoint, falls back to the snapshot), and otherwise
from the snapshot changeableValues; the status merges the same way, except
that a merged HoldUntil without a string snapshot nextPeriodTime is
downgraded to PermanentHold; autoChangeoverActive is copied exactly when
the snapshot exposes it as a boolean. -/
theorem C3_amended_truthy_merge (p : WriteParams) (dd : JVal) :
    (truthy p.mode = true → (_sendThermostatData p dd).mode = p.mode) ∧
    (truthy p.mode = false →
      (_sendThermostatData p dd).mode = jget (jget dd "changeableValues") "mode") ∧
    (truthy p.heatSetpoint = true →
      (_sendThermostatData p dd).heatSetpoint = p.heatSetpoint) ∧
    (truthy p.heatSetpoint = false →
      (_sendThermostatData p dd).heatSetpoint =
        jget (jget dd "changeableValues") "heatSetpoint") ∧
    (truthy p.coolSetpoint = true →
      (_sendThermostatData p dd).coolSetpoint = p.coolSetpoint) ∧
    (truthy p.coolSetpoint = false →
      (_sendThermostatData p dd).coolSetpoint =
        jget (jget dd "changeableValues") "coolSetpoint") ∧
    (∀ b, jget (jget dd "changeableValues") "autoChangeoverActive" = JVal.bool b →
      (_sendThermostatData p dd).autoChangeoverActive = some b) ∧
    ((jget (jget dd "changeableValues") "autoChangeoverActive").isBool = false →
      (_sendThermostatData p dd).autoChangeoverActive = none) ∧
    (jsOr p.thermostatSetpointStatus
        (jget (jget dd "changeableValues") "thermostatSetpointStatus") ≠
        JVal.str "HoldUntil" →
      (_sendThermostatData p dd).thermostatSetpointStatus =
        jsOr p.thermostatSetpointStatus
          (jget (jget dd "changeableValues") "thermostatSetpointStatus")) ∧
    (jsOr p.thermostatSetpointStatus
        (jget (jget dd "changeableValues") "thermostatSetpointStatus") =
        JVal.str "HoldUntil" →
      (jget (jget dd "changeableValues") "nextPeriodTime").isString = false →
      (_sendThermostatData p dd).thermostatSetpointStatus = JVal.str "PermanentHold") := by
  have hbranch : ∀ v : JVal,
      ((_sendThermostatData p dd).mode =
        jsOr p.mode (jget (jget dd "changeableValues") "mode")) ∧
      ((_sendThermostatData p dd).heatSetpoint =
        jsOr p.heatSetpoint (jget (jget dd "changeableValues") "heatSetpoint")) ∧
      ((_sendThermostatData p dd).coolSetpoint =
        jsOr p.coolSetpoint (jget (jget dd "changeableValues") "coolSetpoint")) := by
    intro _
    unfold _sendThermostatData
    dsimp only
    split
    · split <;> exact ⟨rfl, rfl, rfl⟩
    · exact ⟨rfl, rfl, rfl⟩
  obtain ⟨hm, hh, hc⟩ := hbranch JVal.undef
  refine ⟨fun h => ?_, fun h => ?_, fun h => ?_, fun h => ?_, fun h => ?_, fun h => ?_,
    ?_, ?_, ?_, ?_⟩
  · rw [hm]; simp [jsOr, h]
  · rw [hm]; simp [jsOr, h]
  · rw [hh]; simp [jsOr, h]
  · rw [hh]; simp [jsOr, h]
  · rw [hc]; simp [jsOr, h]
  · rw [hc]; simp [jsOr, h]
  · intro b hb
    unfold _sendThermostatData
    dsimp only
    rw [hb]
    split
    · split <;> rfl
    · rfl
  · intro hb
    rcases hv : jget (jget dd "changeableValues") "autoChangeoverActive" with _ | _ | b | _ | _ | _ | _
    case bool => simp [JVal.isBool, hv] at hb
    all_goals
      unfold _sendThermostatData
      dsimp only
      rw [hv]
      split
      · split <;> rfl
      · rfl
  · intro hne
    unfold _sendThermostatData
    dsimp only
    split
    · next hcond =>
      exact absurd ((eqStr_eq_true_iff _ _).mp hcond) hne
    · rfl
  · intro heq hns
    rcases hnp : jget (jget dd "changeableValues") "nextPeriodTime" with _ | _ | _ | _ | _ | s | _
    case str => simp [JVal.isString, hnp] at hns
    all_goals simp [_sendThermostatData, heq, hnp, JVal.eqStr]

/-- C3 amended witness: the theorem evaluated at a concrete caller input
with a truthy heatSetpoint and a falsy (zero) coolSetpoint over a concrete
snapshot. -/
theorem C3_amended_truthy_merge_witness :
    (_sendThermostatData
      mixedWrite snapHoldTimed).heatSetpoint =
      JVal.num 21 ∧
    (_sendThermostatData
      mixedWrite snapHoldTimed).coolSetpoint =
      JVal.num 25 ∧
    (_sendThermostatData
      mixedWrite snapHoldTimed).mode = JVal.str "Heat" :=
  ⟨(C3_amended_truthy_merge mixedWrite snapHoldTimed).2.2.1 rfl,
   (C3_amended_truthy_merge mixedWrite snapHoldTimed).2.2.2.2.2.1 rfl,
   (C3_amended_truthy_merge mixedWrite snapHoldTimed).2.1 rfl⟩

/-- A concrete currently-available device with Celsius units and measured
temperature 5. -/
def aliveDevice : DeviceState :=
  { hasCool := false, hasThermoMode := false, hasACMode := false,
    unitsSetting := JVal.str "Celsius", measureTemperature := JVal.num 5,
    targetTemperature := JVal.num 18, targetTemperatureCool := JVal.undef,
    thermostatMode := JVal.undef, acMode := JVal.undef,
    available := true, availEvents := [], modeEvents := [] }

/-- A remote payload lacking changeableValues but carrying units,
indoorTemperature and isAlive. -/
def payloadNoCV : JVal :=
  JVal.obj [("units", JVal.str "Celsius"), ("indoorTemperature", JVal.num 20),
    ("isAlive", JVal.bool true)]

/-- A remote payload with changeableValues but lacking units. -/
def payloadNoUnits : JVal :=
  JVal.obj [("changeableValues", JVal.obj
      [("mode", JVal.str "Heat"), ("heatSetpoint", JVal.num 19),
       ("coolSetpoint", JVal.num 24)]),
    ("indoorTemperature", JVal.num 20), ("isAlive", JVal.bool true)]

/-- A remote payload lacking isAlive. -/
def payloadNoAlive : JVal :=
  JVal.obj [("units", JVal.str "Celsius"), ("indoorTemperature", JVal.num 20)]

/-- A remote payload reporting Fahrenheit units but no indoorTemperature. -/
def payloadNoIndoor : JVal :=
  JVal.obj [("units", JVal.str "Fahrenheit"), ("isAlive", JVal.bool true)]

/-- C5 counterexample: on a payload without changeableValues but with
units, indoorTemperature and isAlive all present, the whole reconciliation
returns the state unchanged, although the measured-temperature step run on
the same payload would have stored 20 in place of 5 — so the other parse
steps do not still run as the claim states. -/
theorem C5_skip_counterexample :
    reconcileThermostat payloadNoCV aliveDevice = aliveDevice ∧
    (_parseMeasuredTemperature payloadNoCV aliveDevice).measureTemperature = JVal.num 20 ∧
    aliveDevice.measureTemperature = JVal.num 5 ∧
    JVal.num 20 ≠ JVal.num 5 :=
  ⟨rfl, rfl, rfl, by simp⟩

/-- C5 amended: an absent changeableValues aborts the whole thermostat
reconciliation, leaving the state unchanged; an absent units skips exactly
the measured-temperature step without changing state; an absent isAlive
does not skip the aliveness step — it runs on the undefined value, marking
an available device unavailable; an absent indoorTemperature does not skip
the measured-temperature step — it stores undefined (NaN after a
Fahrenheit conversion). -/
theorem C5_amended_partial_reconciliation (dd : JVal) (st : DeviceState) :
    (jgetOpt dd "changeableValues" = none → reconcileThermostat dd st = st) ∧
    (jgetOpt dd "units" = none → _parseMeasuredTemperature dd st = st) ∧
    (jgetOpt dd "isAlive" = none →
      _parseAlive dd st = if st.available then setUnavailable st else st) ∧
    (∀ u, jgetOpt dd "units" = some u → jgetOpt dd "indoorTemperature" = none →
      (_parseMeasuredTemperature dd st).measureTemperature =
        (if JVal.eqStr u "Celsius" then JVal.undef else JVal.nan)) := by
  refine ⟨fun h => by simp [reconcileThermostat, h],
    fun h => by simp [_parseMeasuredTemperature, h], fun h => ?_, fun u hu hi => ?_⟩
  · cases hav : st.available <;>
      simp [_parseAlive, jget, h, truthy, hav]
  · rcases hc : JVal.eqStr u "Celsius" <;>
      simp [_parseMeasuredTemperature, hu, jget, hi, ftocJV, hc]

/-- C5 amended witness: the theorem evaluated at concrete payloads, one per
missing required field. -/
theorem C5_amended_partial_reconciliation_witness :
    reconcileThermostat payloadNoCV aliveDevice = aliveDevice ∧
    _parseMeasuredTemperature payloadNoUnits aliveDevice = aliveDevice ∧
    _parseAlive payloadNoAlive aliveDevice = setUnavailable aliveDevice ∧
    (_parseMeasuredTemperature payloadNoIndoor aliveDevice).measureTemperature = JVal.nan := by
  refine ⟨(C5_amended_partial_reconciliation payloadNoCV aliveDevice).1 rfl,
    (C5_amended_partial_reconciliation payloadNoUnits aliveDevice).2.1 rfl, ?_, ?_⟩
  · have h := (C5_amended_partial_reconciliation payloadNoAlive aliveDevice).2.2.1 rfl
    simpa [aliveDevice] using h
  · have h := (C5_amended_partial_reconciliation payloadNoIndoor aliveDevice).2.2.2
      (JVal.str "Fahrenheit") rfl rfl
    simpa [JVal.eqStr] using h

/-- C6: on a reconciliation step with units present, the units setting is
updated to the reported unit and the measured temperature is converted
Fahrenheit to Celsius exactly when the reported unit is not Celsius;
whereas the target-setpoint step stores heat and cool setpoints exactly as
reported, for every device state and hence regardless of the units
setting. -/
theorem C6_unit_asymmetry (dd : JVal) (st : DeviceState) :
    (∀ u, jgetOpt dd "units" = some u →
      (_parseMeasuredTemperature dd st).unitsSetting = u ∧
      (∀ q, jget dd "indoorTemperature" = JVal.num q →
        (_parseMeasuredTemperature dd st).measureTemperature =
          (if JVal.eqStr u "Celsius" then JVal.num q else JVal.num (ftoc q)))) ∧
    (∀ m hs cs, jgetOpt (jget dd "changeableValues") "mode" = some m →
      jgetOpt (jget dd "changeableValues") "heatSetpoint" = some hs →
      jgetOpt (jget dd "changeableValues") "coolSetpoint" = some cs →
      (_parseTargetTemperature dd st).targetTemperature = hs ∧
      (st.hasCool = true → (_parseTargetTemperature dd st).targetTemperatureCool = cs) ∧
      (st.hasCool = false →
        (_parseTargetTemperature dd st).targetTemperatureCool = st.targetTemperatureCool)) := by
  constructor
  · intro u hu
    refine ⟨by simp [_parseMeasuredTemperature, hu], fun q hq => ?_⟩
    rcases hc : JVal.eqStr u "Celsius" <;>
      simp [_parseMeasuredTemperature, hu, hq, ftocJV, hc]
  · intro m hs cs hm hh hc
    cases hcool : st.hasCool <;>
      simp [_parseTargetTemperature, hm, hh, hc, hcool]

/-- A full remote payload reporting Fahrenheit with indoor temperature 32. -/
def payloadF : JVal :=
  JVal.obj [("changeableValues", JVal.obj
      [("mode", JVal.str "Heat"), ("heatSetpoint", JVal.num 19),
       ("coolSetpoint", JVal.num 24)]),
    ("units", JVal.str "Fahrenheit"), ("indoorTemperature", JVal.num 32),
    ("isAlive", JVal.bool true)]

/-- C6 witness: a Fahrenheit payload with indoor temperature 32 stores
measured temperature 0, mirrors the reported unit, and stores the heat
setpoint exactly as reported. -/
theorem C6_unit_asymmetry_witness :
    (_parseMeasuredTemperature payloadF aliveDevice).measureTemperature = JVal.num 0 ∧
    (_parseMeasuredTemperature payloadF aliveDevice).unitsSetting = JVal.str "Fahrenheit" ∧
    (_parseTargetTemperature payloadF aliveDevice).targetTemperature = JVal.num 19 := by
  have h := C6_unit_asymmetry payloadF aliveDevice
  refine ⟨?_, (h.1 (JVal.str "Fahrenheit") rfl).1, ?_⟩
  · have hm := (h.1 (JVal.str "Fahrenheit") rfl).2 32 rfl
    have hv : ftoc 32 = 0 := by norm_num [ftoc]
    simpa [JVal.eqStr, hv] using hm
  · exact ((h.2 (JVal.str "Heat") (JVal.num 19) (JVal.num 24)) rfl rfl rfl).1

/-- C7: with isAlive reported as a boolean, the aliveness step leaves the
availability flag equal to that boolean, records a transition exactly when
the current availability differs from it (never a redundant
re-application), and a second application of the same payload changes
nothing further. -/
theorem C7_alive_edge_trigger (dd : JVal) (st : DeviceState) (b : Bool)
    (h : jget dd "isAlive" = JVal.bool b) :
    ((_parseAlive dd st).available = b) ∧
    ((_parseAlive dd st).availEvents =
      st.availEvents ++ (if st.available = b then [] else [b])) ∧
    (_parseAlive dd (_parseAlive dd st) = _parseAlive dd st) := by
  cases b <;> cases hav : st.available <;>
    simp [_parseAlive, h, truthy, setAvailable, setUnavailable, hav]

/-- A remote payload reporting the device offline. -/
def payloadDead : JVal :=
  JVal.obj [("isAlive", JVal.bool false)]

/-- C7 witness: an available device seeing isAlive false becomes
unavailable with exactly one recorded transition, and a second identical
application changes nothing. -/
theorem C7_alive_edge_trigger_witness :
    (_parseAlive payloadDead aliveDevice).available = false ∧
    (_parseAlive payloadDead aliveDevice).availEvents = [false] ∧
    _parseAlive payloadDead (_parseAlive payloadDead aliveDevice) =
      _parseAlive payloadDead aliveDevice := by
  have h := C7_alive_edge_trigger payloadDead aliveDevice false rfl
  exact ⟨h.1, by simpa [aliveDevice] using h.2.1, h.2.2⟩

/-- C10: a user-supplied setpoint is converted Celsius to Fahrenheit by
`_transformTemperature` exactly when the units setting is a string other
than Celsius, and passes through unchanged when the setting is Celsius or
not a string; `onMultipleCapabilities` places the transformed value in the
write command for the heat setpoint, and for the cool setpoint when the
capability exists. -/
theorem C10_write_side_conversion (st : DeviceState) (vals : JVal) (q : ℚ) :
    (∀ s, s ≠ "Celsius" →
      _transformTemperature (JVal.str s) (JVal.num q) = JVal.num (ctof q)) ∧
    (_transformTemperature (JVal.str "Celsius") (JVal.num q) = JVal.num q) ∧
    (∀ u : JVal, u.isString = false → _transformTemperature u (JVal.num q) = JVal.num q) ∧
    (jget vals "target_temperature" = JVal.num q →
      (onMultipleCapabilities st vals).heatSetpoint =
        _transformTemperature st.unitsSetting (JVal.num q)) ∧
    (st.hasCool = true → jget vals "target_temperature.cool" = JVal.num q →
      (onMultipleCapabilities st vals).coolSetpoint =
        _transformTemperature st.unitsSetting (JVal.num q)) := by
  refine ⟨fun s hsne => by simp [_transformTemperature, ctofJV, hsne], rfl, ?_, ?_, ?_⟩
  · intro u hu
    cases u <;> simp [JVal.isString, _transformTemperature] at hu ⊢
  · intro hv
    simp [onMultipleCapabilities, hv, JVal.isNumber]
  · intro hcool hv
    simp [onMultipleCapabilities, hv, JVal.isNumber, hcool]

/-- A device whose stored units setting is Fahrenheit. -/
def fahrenheitDevice : DeviceState :=
  { hasCool := false, hasThermoMode := false, hasACMode := false,
    unitsSetting := JVal.str "Fahrenheit", measureTemperature := JVal.num 5,
    targetTemperature := JVal.num 18, targetTemperatureCool := JVal.undef,
    thermostatMode := JVal.undef, acMode := JVal.undef,
    available := true, availEvents := [], modeEvents := [] }

/-- The capability values of a caller setting target temperature 20. -/
def cmdVals : JVal :=
  JVal.obj [("target_temperature", JVal.num 20)]

/-- C10 witness: on a Fahrenheit device a requested setpoint of 20 degrees
Celsius is placed in the command as 68 degrees Fahrenheit. -/
theorem C10_write_side_conversion_witness :
    (onMultipleCapabilities fahrenheitDevice cmdVals).heatSetpoint = JVal.num 68 := by
  have h := (C10_write_side_conversion fahrenheitDevice cmdVals 20).2.2.2.1 rfl
  have hv : ctof 20 = 68 := by norm_num [ctof]
  rw [h]
  simp [fahrenheitDevice, _transformTemperature, ctofJV, hv]

end HoneywellLyric
